import Mathlib

/-!
Shallow embedding of the PET-CBM-OPTIMIZER core (files `physics_module.py` and
`data_persistence.py`) and verification of its specification claims.

Modelling conventions:
* Python floats are modelled as idealized real numbers (`ℝ`); `Python round(x, 1)`
  is modelled as round-half-even at the first decimal on the real value.
* Timestamps (`datetime`) are modelled as real-valued epoch times in seconds, so
  `(scan_start - inj_time).total_seconds()` becomes real subtraction.
* The store values are modelled as rationals (`ℚ`) so that all store operations are
  computable; a Python `dict` is modelled as an association list with unique keys.
* File input/output in `data_persistence.py` is modelled by explicit state passing:
  the backing file is a value of type `BackingFile` (missing, malformed, or holding
  a parsed store) and a write failure is an explicit boolean; Python exceptions that
  the source swallows correspond to the `missing`/`malformed`/write-failure cases.
-/

/-- The two tracer identities of the model (`HALF_LIFE_MIN` keys). -/
inductive Tracer
  | FDG
  | PSMA
deriving DecidableEq, Repr

/-- Constant `self.AXFOV_MM = 263.0`. -/
noncomputable def AXFOV_MM : ℝ := 263.0

/-- Constant table `self.HALF_LIFE_MIN`: 109.77 minutes for both tracers. -/
noncomputable def HALF_LIFE_MIN : Tracer → ℝ
  | .FDG => 109.77
  | .PSMA => 109.77

/-- Constant table `self.SYSTEM_SENSITIVITY`: 9.1 kcps/MBq for both tracers. -/
noncomputable def SYSTEM_SENSITIVITY : Tracer → ℝ
  | .FDG => 9.1
  | .PSMA => 9.1

/-- Python `str(name).upper()`, on the character data of the string. -/
def upperData (s : String) : List Char := s.data.map Char.toUpper

/-- Source `tracer_key`: PSMA when the upper-cased name contains "PSMA", else FDG. -/
def tracer_key (name : String) : Tracer :=
  if "PSMA".data <:+: upperData name then .PSMA else .FDG

/-- Source `get_system_sensitivity`: base sensitivity converted kcps/MBq → cps/MBq. -/
noncomputable def get_system_sensitivity (tracer : String) : ℝ :=
  SYSTEM_SENSITIVITY (tracer_key tracer) * 1000

/-- Source `effective_activity_mbq`: decay- and residual-corrected activity. -/
noncomputable def effective_activity_mbq (injected_mbq inj_time scan_start : ℝ)
    (tracer : String := "FDG") (residual_mbq : ℝ := 0.0) : ℝ :=
  let half_life := HALF_LIFE_MIN (tracer_key tracer)
  let lam := Real.log 2 / half_life
  let dt_min := max ((scan_start - inj_time) / 60.0) 0.0
  let A0 := max (injected_mbq - residual_mbq) 0.0
  A0 * Real.exp (-lam * dt_min)

/-- The five pediatric age groups (`PEDIATRIC_WEIGHT_RANGES` keys). -/
inductive AgeGroup
  | neonate
  | infant
  | toddler
  | child
  | adolescent
deriving DecidableEq, Repr

/-- Source `get_pediatric_age_group`: first weight range (in dict insertion order)
containing the weight, inclusive on both ends. -/
noncomputable def get_pediatric_age_group (weight_kg : ℝ) : Option AgeGroup :=
  if 0.5 ≤ weight_kg ∧ weight_kg ≤ 5.0 then some .neonate
  else if 5.0 ≤ weight_kg ∧ weight_kg ≤ 15.0 then some .infant
  else if 15.0 ≤ weight_kg ∧ weight_kg ≤ 25.0 then some .toddler
  else if 25.0 ≤ weight_kg ∧ weight_kg ≤ 50.0 then some .child
  else if 50.0 ≤ weight_kg ∧ weight_kg ≤ 100.0 then some .adolescent
  else none

/-- Constant table `self.PEDIATRIC_DOSE_FACTORS`. -/
noncomputable def PEDIATRIC_DOSE_FACTORS : AgeGroup → ℝ
  | .neonate => 0.02
  | .infant => 0.05
  | .toddler => 0.10
  | .child => 0.15
  | .adolescent => 0.75

/-- Constant table `self.PEDIATRIC_SCAN_TIME_LIMITS`. -/
noncomputable def PEDIATRIC_SCAN_TIME_LIMITS : AgeGroup → ℝ
  | .neonate => 30.0
  | .infant => 60.0
  | .toddler => 120.0
  | .child => 180.0
  | .adolescent => 240.0

/-- Constant table `self.PEDIATRIC_LBM_FACTORS`. -/
noncomputable def PEDIATRIC_LBM_FACTORS : AgeGroup → ℝ
  | .neonate => 0.85
  | .infant => 0.80
  | .toddler => 0.75
  | .child => 0.70
  | .adolescent => 0.65

/-- Source `is_pediatric_patient`: `return weight_kg < 35.0`. -/
noncomputable def is_pediatric_patient (weight_kg : ℝ) : Bool :=
  decide (weight_kg < 35.0)

/-- Source `get_pediatric_dose_factor`: dose factor of the age group, else 1.0. -/
noncomputable def get_pediatric_dose_factor (weight_kg : ℝ) : ℝ :=
  match get_pediatric_age_group weight_kg with
  | some g => PEDIATRIC_DOSE_FACTORS g
  | none => 1.0

/-- Source `get_pediatric_scan_time_limit`: scan-time ceiling of the age group, else 180.0. -/
noncomputable def get_pediatric_scan_time_limit (weight_kg : ℝ) : ℝ :=
  match get_pediatric_age_group weight_kg with
  | some g => PEDIATRIC_SCAN_TIME_LIMITS g
  | none => 180.0

/-- Source `calculate_lbm`: pediatric branch via age-group LBM factors with weight-tier
fallbacks; adult branch is the Boer-style formula floored at 30 kg.  Python
`(gender or "male").lower()` is modelled on character data, with the empty
string standing for a falsy gender value. -/
noncomputable def calculate_lbm (weight_kg height_cm : ℝ) (gender : String := "male") : ℝ :=
  if is_pediatric_patient weight_kg then
    match get_pediatric_age_group weight_kg with
    | some g => weight_kg * PEDIATRIC_LBM_FACTORS g
    | none =>
      if weight_kg < 10 then weight_kg * 0.85
      else if weight_kg < 30 then weight_kg * 0.80
      else weight_kg * 0.75
  else
    let gl := (if gender = "" then "male" else gender).data.map Char.toLower
    let lbm :=
      if gl = "male".data ∨ gl = "masculino".data ∨ gl = "hombre".data then
        1.10 * weight_kg - 128 * (weight_kg / height_cm) ^ 2
      else
        1.07 * weight_kg - 148 * (weight_kg / height_cm) ^ 2
    max lbm 30.0

/-- Source `bmi_multiplier`: BMI capped at `bmi_cap`; 1.0 at or below `bmi_ref`, else
`(bmi_eff / bmi_ref) ** exp` with exponent 0.6 for FDG and 0.4 otherwise. -/
noncomputable def bmi_multiplier (bmi : ℝ) (tracer : String := "FDG")
    (bmi_ref : ℝ := 22.0) (bmi_cap : ℝ := 40.0) : ℝ :=
  let e0 : ℝ := if tracer_key tracer = .FDG then 0.6 else 0.4
  let bmi_eff := min bmi bmi_cap
  if bmi_eff ≤ bmi_ref then 1.0 else (bmi_eff / bmi_ref) ^ e0

/-- Source `calculate_nec`: `activity_mbq * dwell_time_s * sens`. -/
noncomputable def calculate_nec (activity_mbq dwell_time_s : ℝ)
    (tracer : String := "FDG") : ℝ :=
  activity_mbq * dwell_time_s * get_system_sensitivity tracer

/-- Source `calculate_snr_from_nec`: `np.sqrt(max(nec, 1e-9)) * recon_gain`. -/
noncomputable def calculate_snr_from_nec (nec : ℝ) (recon_gain : ℝ := 1.0) : ℝ :=
  Real.sqrt (max nec 1e-9) * recon_gain

/-- Python `round` to an integer: round half to even (round half to even),
modelled on the real value. -/
noncomputable def roundHalfEven (y : ℝ) : ℤ :=
  if Int.fract y = 1/2 then (if ⌊y⌋ % 2 = 0 then ⌊y⌋ else ⌊y⌋ + 1) else round y

/-- Python `round(x, 1)`: round half to even at the first decimal place. -/
noncomputable def pyRound1 (x : ℝ) : ℝ := (roundHalfEven (10 * x) : ℝ) / 10

/-- Return record of `solve_standard`: the tuple
`(v, t_bed_r, scan_range/v/60, snr_pred, cov_pred, converged)`.  `cov_pred` is
`none` when the source would report `np.nan` (SNR ≤ 0); `converged` is the
boolean condition of the source as a proposition. -/
structure StdSolution where
  v : ℝ
  t_bed_r : ℝ
  total_min : ℝ
  snr_pred : ℝ
  cov_pred : Option ℝ
  converged : Prop

/-- Return record of `solve_lowdose` (adds the recomputed activity `A_low`). -/
structure LowdoseSolution where
  A_low : ℝ
  v : ℝ
  t_bed_r : ℝ
  total_min : ℝ
  snr_pred : ℝ
  cov_pred : Option ℝ
  converged : Prop

/-- Return record of `solve_fast` (no convergence flag in the source). -/
structure FastSolution where
  v : ℝ
  t_bed_r : ℝ
  total_min : ℝ
  snr_pred : ℝ
  cov_pred : Option ℝ

/-- Source `solve_standard`: NEC inversion for the target SNR, pediatric scan-time
ceiling when the pediatric flag is set and a weight is supplied, velocity
clamping to [0.5, 50.0] and rounding to 1 decimal, dwell re-derived from the
rounded velocity, achieved SNR/COV recomputed from the re-derived dwell. -/
noncomputable def solve_standard (A_eff_mbq k recon_gain snr_target_case mult_bmi
    scan_range_mm : ℝ) (tracer : String := "FDG") (is_pediatric : Bool := false)
    (weight_kg : Option ℝ := none) : StdSolution :=
  let nec_req := (snr_target_case / (max k 1e-9 * recon_gain)) ^ 2
  let sens := get_system_sensitivity tracer
  let t_bed0 := nec_req / max (A_eff_mbq * sens) 1e-6 * mult_bmi
  let t_bed :=
    match is_pediatric, weight_kg with
    | true, some w => min t_bed0 (get_pediatric_scan_time_limit w)
    | _, _ => t_bed0
  let v0 := AXFOV_MM / max t_bed 1e-6
  let v1 := max 0.5 (min v0 50.0)
  let v := pyRound1 v1
  let t_bed_r := AXFOV_MM / v
  let nec := calculate_nec A_eff_mbq t_bed_r tracer
  let snr_pred := k * calculate_snr_from_nec nec recon_gain
  { v := v
    t_bed_r := t_bed_r
    total_min := (scan_range_mm / v) / 60.0
    snr_pred := snr_pred
    cov_pred := if 0 < snr_pred then some (1.0 / snr_pred) else none
    converged := |snr_pred - snr_target_case| ≤ 0.3 }

/-- Source `solve_lowdose`: activity recomputed from the dose-per-kg (scaled by the
pediatric dose factor when the pediatric flag is set), then the same
NEC-inversion, clamping, rounding and re-derivation pipeline. -/
noncomputable def solve_lowdose (low_dpk weight_kg k recon_gain snr_target_case
    mult_bmi scan_range_mm : ℝ) (tracer : String := "FDG")
    (is_pediatric : Bool := false) (height_cm : Option ℝ := none) : LowdoseSolution :=
  let A_low :=
    if is_pediatric then low_dpk * weight_kg * get_pediatric_dose_factor weight_kg
    else low_dpk * weight_kg
  let nec_req := (snr_target_case / (max k 1e-9 * recon_gain)) ^ 2
  let sens := get_system_sensitivity tracer
  let t_bed0 := nec_req / max (A_low * sens) 1e-6 * mult_bmi
  let t_bed :=
    if is_pediatric then min t_bed0 (get_pediatric_scan_time_limit weight_kg)
    else t_bed0
  let v0 := AXFOV_MM / max t_bed 1e-6
  let v1 := max 0.5 (min v0 50.0)
  let v := pyRound1 v1
  let t_bed_r := AXFOV_MM / v
  let nec := calculate_nec A_low t_bed_r tracer
  let snr_pred := k * calculate_snr_from_nec nec recon_gain
  { A_low := A_low
    v := v
    t_bed_r := t_bed_r
    total_min := (scan_range_mm / v) / 60.0
    snr_pred := snr_pred
    cov_pred := if 0 < snr_pred then some (1.0 / snr_pred) else none
    converged := v > 0.5 + 1e-6 }

/-- Source `solve_fast`: dwell starts from the fast reference dwell scaled by the BMI
multiplier; when the pediatric flag is set and a weight is supplied it is
further scaled by `0.5 + 0.3 * (dose_factor / 0.15)` and capped at half the
age-group scan-time ceiling; then the shared clamping, rounding and
re-derivation pipeline. -/
noncomputable def solve_fast (A_eff_mbq k recon_gain mult_bmi fast_t_ref_s
    scan_range_mm : ℝ) (tracer : String := "FDG") (is_pediatric : Bool := false)
    (weight_kg : Option ℝ := none) : FastSolution :=
  let t_bed_fast0 := fast_t_ref_s * mult_bmi
  let t_bed_fast :=
    match is_pediatric, weight_kg with
    | true, some w =>
      min (t_bed_fast0 * (0.5 + 0.3 * (get_pediatric_dose_factor w / 0.15)))
        (get_pediatric_scan_time_limit w * 0.5)
    | _, _ => t_bed_fast0
  let v0 := AXFOV_MM / max t_bed_fast 1e-6
  let v1 := max 0.5 (min v0 50.0)
  let v := pyRound1 v1
  let t_bed_r := AXFOV_MM / v
  let nec := calculate_nec A_eff_mbq t_bed_r tracer
  let snr_pred := k * calculate_snr_from_nec nec recon_gain
  { v := v
    t_bed_r := t_bed_r
    total_min := (scan_range_mm / v) / 60.0
    snr_pred := snr_pred
    cov_pred := if 0 < snr_pred then some (1.0 / snr_pred) else none }

/-- The parsed k-factor store: a JSON object mapping `"{tracer}_{recon_profile}"`
keys to lists of measured k values, modelled as an association list. -/
abbrev KStore := List (String × List ℚ)

/-- The backing store file: missing, present but unparseable, or parsed content.
The source checks `self.store_file.exists()` and parses with `json.loads`; the failure cases map to the
first two constructors. -/
inductive BackingFile
  | missing
  | malformed
  | content (store : KStore)

/-- Source `load_store`: returns the parsed mapping; an absent file or a parse
exception (caught by the bare `except` of the source) yields the empty mapping. -/
def load_store : BackingFile → KStore
  | .missing => []
  | .malformed => []
  | .content s => s

/-- Source `save_store`: overwrites the backing file with the serialized mapping; a
write exception (caught by the bare `except: pass` of the source) leaves the file
untouched.  `write_ok` models whether the write succeeds. -/
def save_store (write_ok : Bool) (file : BackingFile) (store : KStore) : BackingFile :=
  if write_ok then .content store else file

/-- Python `store[key] = arr` on the modelled dict: replace the binding if the
key is present, otherwise append it. -/
def storeSet (store : KStore) (key : String) (arr : List ℚ) : KStore :=
  if store.any (fun p => p.1 = key) then
    store.map (fun p => if p.1 = key then (key, arr) else p)
  else store ++ [(key, arr)]

/-- Source `add_k_measurement`: appends `k_value` to the list under
`"{tracer}_{recon_profile}"` and returns the updated mapping.  The source also
immediately persists via `save_store`; persistence is modelled separately by
`save_store` acting on a `BackingFile`. -/
def add_k_measurement (store : KStore) (tracer recon_profile : String)
    (k_value : ℚ) : KStore :=
  let key := tracer ++ "_" ++ recon_profile
  let arr := (List.lookup key store).getD []
  storeSet store key (arr ++ [k_value])

/-- Model of `np.sort` on the stored values (ascending). -/
def npSort (l : List ℚ) : List ℚ := l.insertionSort (· ≤ ·)

/-- Model of `np.median`: middle element of the sorted data for odd length, mean of the
two middle elements for even length. -/
def npMedian (l : List ℚ) : ℚ :=
  let s := npSort l
  let n := s.length
  if n % 2 = 1 then s.getD (n / 2) 0
  else (s.getD (n / 2 - 1) 0 + s.getD (n / 2) 0) / 2

/-- Model of `np.percentile` with the default linear interpolation: position
`q/100 * (n-1)` into the sorted data, interpolating between the two
neighbouring order statistics. -/
def npPercentile (q : ℚ) (l : List ℚ) : ℚ :=
  let s := npSort l
  let pos := q / 100 * ((s.length : ℚ) - 1)
  let i := (⌊pos⌋).toNat
  let lo := s.getD i 0
  let hi := s.getD (i + 1) lo
  lo + (pos - ⌊pos⌋) * (hi - lo)

/-- Source `summarize_k`: `None` when no values are stored under
`"{tracer}_{recon_profile}"`, otherwise
`(median, 25th percentile, 75th percentile, count)`. -/
def summarize_k (store : KStore) (tracer recon_profile : String) :
    Option (ℚ × ℚ × ℚ × ℕ) :=
  let key := tracer ++ "_" ++ recon_profile
  let vals := (List.lookup key store).getD []
  if vals = [] then none
  else some (npMedian vals, npPercentile 25 vals, npPercentile 75 vals, vals.length)

/-! ### Helper lemmas -/

lemma roundHalfEven_bounds (y : ℝ) :
    y - 1/2 ≤ (roundHalfEven y : ℝ) ∧ (roundHalfEven y : ℝ) ≤ y + 1/2 := by
  unfold roundHalfEven
  by_cases h : Int.fract y = 1/2
  · have hfl : (⌊y⌋ : ℝ) = y - 1/2 := by
      have := Int.fract_add_floor y
      rw [h] at this
      linarith
    rw [if_pos h]
    by_cases he : ⌊y⌋ % 2 = 0
    · rw [if_pos he, hfl]
      constructor <;> linarith
    · rw [if_neg he]
      push_cast
      rw [hfl]
      constructor <;> linarith
  · rw [if_neg h]
    have habs := abs_sub_round y
    rw [abs_sub_le_iff] at habs
    constructor <;> linarith [habs.1, habs.2]

lemma pyRound1_clamp (x : ℝ) :
    0.5 ≤ pyRound1 (max 0.5 (min x 50.0)) ∧ pyRound1 (max 0.5 (min x 50.0)) ≤ 50.0 ∧
    ∃ n : ℤ, pyRound1 (max 0.5 (min x 50.0)) = (n : ℝ) / 10 := by
  set v1 := max 0.5 (min x 50.0) with hv1
  have h1 : (0.5 : ℝ) ≤ v1 := le_max_left _ _
  have h2 : v1 ≤ 50.0 := max_le (by norm_num) (min_le_right _ _)
  obtain ⟨hlo, hhi⟩ := roundHalfEven_bounds (10 * v1)
  set n := roundHalfEven (10 * v1) with hn
  have hn5 : (5 : ℤ) ≤ n := by
    have : (4 : ℝ) < (n : ℝ) := by nlinarith
    exact_mod_cast this
  have hn500 : n ≤ 500 := by
    have h501 : (n : ℝ) < 501 := by nlinarith
    have : n < 501 := by exact_mod_cast h501
    omega
  have hval : pyRound1 v1 = (n : ℝ) / 10 := rfl
  refine ⟨?_, ?_, ⟨n, hval⟩⟩
  · rw [hval]
    have : (5 : ℝ) ≤ (n : ℝ) := by exact_mod_cast hn5
    linarith
  · rw [hval]
    have : (n : ℝ) ≤ 500 := by exact_mod_cast hn500
    linarith

lemma is_pediatric_patient_iff (w : ℝ) : is_pediatric_patient w = true ↔ w < 35.0 := by
  simp [is_pediatric_patient]

lemma is_pediatric_patient_false_iff (w : ℝ) :
    is_pediatric_patient w = false ↔ 35.0 ≤ w := by
  simp [is_pediatric_patient, not_lt]

lemma half_life_pos (t : Tracer) : 0 < HALF_LIFE_MIN t := by
  cases t <;> norm_num [HALF_LIFE_MIN]

lemma age_group_20 : get_pediatric_age_group (20:ℝ) = some AgeGroup.toddler := by
  norm_num [get_pediatric_age_group]

lemma dose_factor_20 : get_pediatric_dose_factor (20:ℝ) = 0.10 := by
  rw [get_pediatric_dose_factor, age_group_20]
  rfl

lemma limit_20 : get_pediatric_scan_time_limit (20:ℝ) = 120.0 := by
  rw [get_pediatric_scan_time_limit, age_group_20]
  rfl

lemma age_group_30 : get_pediatric_age_group (30:ℝ) = some AgeGroup.child := by
  norm_num [get_pediatric_age_group]

lemma dose_factor_30 : get_pediatric_dose_factor (30:ℝ) = 0.15 := by
  rw [get_pediatric_dose_factor, age_group_30]
  rfl

lemma limit_30 : get_pediatric_scan_time_limit (30:ℝ) = 180.0 := by
  rw [get_pediatric_scan_time_limit, age_group_30]
  rfl

lemma fast_dwell_le_60 (t : ℝ) (ht : t ≤ 60) :
    AXFOV_MM / pyRound1 (max 0.5 (min (AXFOV_MM / max t 1e-6) 50.0)) ≤ 60 := by
  have hA : AXFOV_MM = (263:ℝ) := by norm_num [AXFOV_MM]
  rw [hA]
  have hmaxle : max t 1e-6 ≤ 60 := max_le ht (by norm_num)
  have hmaxpos : (0:ℝ) < max t 1e-6 := lt_of_lt_of_le (by norm_num) (le_max_right _ _)
  have hv0 : (263:ℝ)/60 ≤ 263 / max t 1e-6 :=
    div_le_div_of_nonneg_left (by norm_num) hmaxpos hmaxle
  set v1 := max 0.5 (min ((263:ℝ) / max t 1e-6) 50.0) with hv1def
  have hv1 : (263:ℝ)/60 ≤ v1 :=
    le_trans (le_min hv0 (by norm_num)) (le_max_right _ _)
  obtain ⟨hlo, hhi⟩ := roundHalfEven_bounds (10 * v1)
  set n := roundHalfEven (10 * v1) with hndef
  have h43 : (43:ℝ) < (n:ℝ) := by linarith
  have hn44 : (44:ℤ) ≤ n := by
    have : (43:ℤ) < n := by exact_mod_cast h43
    omega
  have h44 : (44:ℝ) ≤ (n:ℝ) := by exact_mod_cast hn44
  have hval : pyRound1 v1 = (n : ℝ) / 10 := rfl
  rw [hval]
  rw [div_le_iff₀ (by linarith)]
  linarith

/-! ### Claim theorems -/

/-- Claim C1 counterexample: at the exact boundary weight 35.0 the code
classifies the patient as NOT pediatric (`35.0 < 35.0` is false), contradicting
the claim that weight 35.0 is classified pediatric. -/
theorem C1_boundary_not_pediatric : is_pediatric_patient 35.0 = false := by
  rw [is_pediatric_patient_false_iff]

/-- Claim C1 (amended): every weight below 35 kg is classified pediatric, every
weight of at least 35 kg (including the boundary 35.0) is classified adult, and
this gate selects the adult branch of the LBM computation. -/
theorem C1_pediatric_gate : ∀ (w h : ℝ) (g : String),
    (w < 35.0 → is_pediatric_patient w = true) ∧
    (35.0 ≤ w → is_pediatric_patient w = false) ∧
    (35.0 ≤ w →
      calculate_lbm w h g =
        max
          (if ((if g = "" then "male" else g).data.map Char.toLower) = "male".data ∨
              ((if g = "" then "male" else g).data.map Char.toLower) = "masculino".data ∨
              ((if g = "" then "male" else g).data.map Char.toLower) = "hombre".data then
            1.10 * w - 128 * (w / h) ^ 2
          else 1.07 * w - 148 * (w / h) ^ 2) 30.0) := by
  intro w h g
  refine ⟨fun hw => (is_pediatric_patient_iff w).mpr hw,
          fun hw => (is_pediatric_patient_false_iff w).mpr hw, fun hw => ?_⟩
  have hped : ¬ (is_pediatric_patient w = true) := by
    rw [(is_pediatric_patient_false_iff w).mpr hw]
    exact Bool.false_ne_true
  unfold calculate_lbm
  rw [if_neg hped]

/-- Witness for `C1_pediatric_gate` at concrete weights 20 kg and 40 kg. -/
theorem C1_witness :
    is_pediatric_patient 20 = true ∧ is_pediatric_patient 40 = false ∧
    calculate_lbm 40 160 "female" =
      max (1.07 * 40 - 148 * ((40:ℝ) / 160) ^ 2) 30.0 := by
  refine ⟨(C1_pediatric_gate 20 170 "male").1 (by norm_num),
          (C1_pediatric_gate 40 160 "female").2.1 (by norm_num), ?_⟩
  have h := (C1_pediatric_gate 40 160 "female").2.2 (by norm_num)
  rw [h, if_neg (by decide)]

/-- Claim C2 (amended): the reported dwell time of `solve_standard`, re-fed into
`calculate_nec` and `calculate_snr_from_nec` with the same effective activity,
tracer and reconstruction gain, and scaled by the calibration constant `k`,
reproduces the reported `snr_pred` exactly. -/
theorem C2_snr_roundtrip : ∀ (A k g s m r : ℝ) (tr : String) (p : Bool) (w : Option ℝ),
    (solve_standard A k g s m r tr p w).snr_pred =
      k * calculate_snr_from_nec
        (calculate_nec A (solve_standard A k g s m r tr p w).t_bed_r tr) g := by
  intro A k g s m r tr p w
  rfl

/-- Claim C2 counterexample: with calibration constant `k = 2`, feeding the
reported dwell time back into `calculate_nec` and `calculate_snr_from_nec`
alone (without the factor `k`) does NOT reproduce the reported `snr_pred`. -/
theorem C2_counterexample :
    calculate_snr_from_nec
        (calculate_nec 100 ((solve_standard 100 2 1 10 1 1000 "FDG" false none).t_bed_r) "FDG") 1 ≠
      (solve_standard 100 2 1 10 1 1000 "FDG" false none).snr_pred := by
  have h : (solve_standard 100 2 1 10 1 1000 "FDG" false none).snr_pred =
      2 * calculate_snr_from_nec
        (calculate_nec 100 ((solve_standard 100 2 1 10 1 1000 "FDG" false none).t_bed_r) "FDG") 1 :=
    rfl
  set S := calculate_snr_from_nec
    (calculate_nec 100 ((solve_standard 100 2 1 10 1 1000 "FDG" false none).t_bed_r) "FDG") 1
    with hSdef
  have hpos : 0 < S := by
    rw [hSdef]
    unfold calculate_snr_from_nec
    rw [mul_one]
    exact Real.sqrt_pos.mpr (lt_of_lt_of_le (by norm_num) (le_max_right _ _))
  intro heq
  rw [h] at heq
  linarith

/-- Claim C3: each of the three solvers reports a bed velocity inside
[0.5, 50.0] that is a whole number of tenths (rounded to 1 decimal place), and
reports as dwell time exactly the axial FOV divided by that reported velocity. -/
theorem C3_clamp_round_backderive :
    (∀ (A k g s m r : ℝ) (tr : String) (p : Bool) (w : Option ℝ),
      0.5 ≤ (solve_standard A k g s m r tr p w).v ∧
      (solve_standard A k g s m r tr p w).v ≤ 50.0 ∧
      (∃ n : ℤ, (solve_standard A k g s m r tr p w).v = (n : ℝ) / 10) ∧
      (solve_standard A k g s m r tr p w).t_bed_r =
        AXFOV_MM / (solve_standard A k g s m r tr p w).v) ∧
    (∀ (ld wk k g s m r : ℝ) (tr : String) (p : Bool) (hc : Option ℝ),
      0.5 ≤ (solve_lowdose ld wk k g s m r tr p hc).v ∧
      (solve_lowdose ld wk k g s m r tr p hc).v ≤ 50.0 ∧
      (∃ n : ℤ, (solve_lowdose ld wk k g s m r tr p hc).v = (n : ℝ) / 10) ∧
      (solve_lowdose ld wk k g s m r tr p hc).t_bed_r =
        AXFOV_MM / (solve_lowdose ld wk k g s m r tr p hc).v) ∧
    (∀ (A k g m fr r : ℝ) (tr : String) (p : Bool) (w : Option ℝ),
      0.5 ≤ (solve_fast A k g m fr r tr p w).v ∧
      (solve_fast A k g m fr r tr p w).v ≤ 50.0 ∧
      (∃ n : ℤ, (solve_fast A k g m fr r tr p w).v = (n : ℝ) / 10) ∧
      (solve_fast A k g m fr r tr p w).t_bed_r =
        AXFOV_MM / (solve_fast A k g m fr r tr p w).v) := by
  refine ⟨fun A k g s m r tr p w => ?_, fun ld wk k g s m r tr p hc => ?_,
          fun A k g m fr r tr p w => ?_⟩
  · exact ⟨(pyRound1_clamp _).1, (pyRound1_clamp _).2.1, (pyRound1_clamp _).2.2, rfl⟩
  · exact ⟨(pyRound1_clamp _).1, (pyRound1_clamp _).2.1, (pyRound1_clamp _).2.2, rfl⟩
  · exact ⟨(pyRound1_clamp _).1, (pyRound1_clamp _).2.1, (pyRound1_clamp _).2.2, rfl⟩

/-- Claim C4 (amended): with the pediatric flag set and a weight supplied,
`solve_fast` scales the fast reference dwell by the BMI multiplier and by the
reduction factor `0.5 + 0.3 * (dose_factor / 0.15)`, and caps the
PRE-ROUNDING dwell at half the age-group scan-time ceiling; the reported dwell
is back-derived from the rounded velocity and can slightly exceed that cap, but
for the 20 kg example of the claim the reported dwell is at most half the toddler
ceiling. -/
theorem C4_fast_pediatric_cap : ∀ (A k g m fr r : ℝ) (tr : String) (w : ℝ),
    ((solve_fast A k g m fr r tr true (some w)).v =
      pyRound1 (max 0.5 (min (AXFOV_MM / max
        (min (fr * m * (0.5 + 0.3 * (get_pediatric_dose_factor w / 0.15)))
          (get_pediatric_scan_time_limit w * 0.5)) 1e-6) 50.0))) ∧
    min (fr * m * (0.5 + 0.3 * (get_pediatric_dose_factor w / 0.15)))
        (get_pediatric_scan_time_limit w * 0.5) ≤
      get_pediatric_scan_time_limit w * 0.5 ∧
    ((solve_fast A k g m fr r tr true (some 20)).t_bed_r ≤
      get_pediatric_scan_time_limit 20 * 0.5) := by
  intro A k g m fr r tr w
  refine ⟨rfl, min_le_right _ _, ?_⟩
  have ht : min (fr * m * (0.5 + 0.3 * (get_pediatric_dose_factor (20:ℝ) / 0.15)))
      (get_pediatric_scan_time_limit (20:ℝ) * 0.5) ≤ 60 := by
    have h1 := min_le_right (fr * m * (0.5 + 0.3 * (get_pediatric_dose_factor (20:ℝ) / 0.15)))
      (get_pediatric_scan_time_limit (20:ℝ) * 0.5)
    have h2 : get_pediatric_scan_time_limit (20:ℝ) * 0.5 = 60 := by rw [limit_20]; norm_num
    exact le_trans h1 (le_of_eq h2)
  have h60 : get_pediatric_scan_time_limit (20:ℝ) * 0.5 = 60 := by
    rw [limit_20]; norm_num
  rw [h60]
  exact fast_dwell_le_60 _ ht

/-- Claim C4 counterexample: for a 30 kg pediatric patient (child group,
ceiling 180 s, half-ceiling 90 s) with fast reference dwell 200 s and BMI
multiplier 1, the reported dwell time of `solve_fast` is 2630/29 ≈ 90.69 s,
strictly greater than half the scan-time ceiling. -/
theorem C4_counterexample :
    is_pediatric_patient 30 = true ∧
    get_pediatric_scan_time_limit 30 * 0.5 = 90 ∧
    90 < (solve_fast 100 1 1 1 200 1000 "FDG" true (some 30)).t_bed_r := by
  refine ⟨(is_pediatric_patient_iff 30).mpr (by norm_num), ?_, ?_⟩
  · rw [limit_30]; norm_num
  · have heq : (solve_fast 100 1 1 1 200 1000 "FDG" true (some 30)).t_bed_r =
        AXFOV_MM / pyRound1 (max 0.5 (min (AXFOV_MM / max
          (min ((200:ℝ) * 1 * (0.5 + 0.3 * (get_pediatric_dose_factor (30:ℝ) / 0.15)))
            (get_pediatric_scan_time_limit (30:ℝ) * 0.5)) 1e-6) 50.0)) := rfl
    rw [heq, dose_factor_30, limit_30]
    have hA : AXFOV_MM = (263:ℝ) := by norm_num [AXFOV_MM]
    rw [hA]
    have hmin : min ((200:ℝ) * 1 * (0.5 + 0.3 * (0.15 / 0.15))) (180.0 * 0.5) = 90 := by
      rw [min_eq_right (by norm_num)]
      norm_num
    rw [hmin]
    have hmax : max (90:ℝ) 1e-6 = 90 := max_eq_left (by norm_num)
    rw [hmax]
    have hv1 : max 0.5 (min ((263:ℝ) / 90) 50.0) = 263/90 := by
      rw [min_eq_left (by norm_num), max_eq_right (by norm_num)]
    rw [hv1]
    have hround : pyRound1 ((263:ℝ)/90) = 29/10 := by
      unfold pyRound1
      rw [show (10:ℝ) * (263/90) = 263/9 by norm_num]
      have hfl : ⌊(263/9 : ℝ)⌋ = 29 := by
        rw [Int.floor_eq_iff]
        norm_num
      have hfr : Int.fract ((263:ℝ)/9) ≠ 1/2 := by
        rw [Int.fract, hfl]
        norm_num
      unfold roundHalfEven
      rw [if_neg hfr, round_eq]
      rw [show (263/9 : ℝ) + 1/2 = 535/18 by norm_num]
      rw [show ⌊(535/18 : ℝ)⌋ = 29 from by rw [Int.floor_eq_iff]; norm_num]
      norm_num
    rw [hround]
    norm_num

lemma effective_activity_at_nonpos (A0 ti s res : ℝ) (tr : String) (h : s ≤ ti) :
    effective_activity_mbq A0 ti s tr res = max (A0 - res) 0.0 := by
  simp only [effective_activity_mbq]
  have hq : (s - ti) / (60.0:ℝ) ≤ 0.0 := by
    have h0 : (s - ti) / (60.0:ℝ) ≤ 0 :=
      div_nonpos_of_nonpos_of_nonneg (by linarith) (by norm_num)
    linarith
  rw [max_eq_right hq]
  norm_num

/-- Claim C5: for fixed injected activity, residual and tracer, the effective
activity is non-increasing in the scan-start time; it equals
`max(injected − residual, 0)` when the scan starts at injection time; and a
scan start before injection clamps to that same value instead of failing. -/
theorem C5_effective_activity_decay : ∀ (A0 ti res s1 s2 : ℝ) (tr : String),
    (s1 ≤ s2 →
      effective_activity_mbq A0 ti s2 tr res ≤ effective_activity_mbq A0 ti s1 tr res) ∧
    effective_activity_mbq A0 ti ti tr res = max (A0 - res) 0.0 ∧
    (s1 ≤ ti → effective_activity_mbq A0 ti s1 tr res = max (A0 - res) 0.0) := by
  intro A0 ti res s1 s2 tr
  refine ⟨fun h12 => ?_, effective_activity_at_nonpos A0 ti ti res tr le_rfl,
          fun h1i => effective_activity_at_nonpos A0 ti s1 res tr h1i⟩
  simp only [effective_activity_mbq]
  have hhl : 0 < HALF_LIFE_MIN (tracer_key tr) := half_life_pos _
  have hlam : 0 ≤ Real.log 2 / HALF_LIFE_MIN (tracer_key tr) :=
    div_nonneg (Real.log_nonneg one_le_two) hhl.le
  have hA0 : (0:ℝ) ≤ max (A0 - res) 0.0 :=
    le_trans (by norm_num) (le_max_right (A0 - res) 0.0)
  apply mul_le_mul_of_nonneg_left ?_ hA0
  apply Real.exp_le_exp.mpr
  have hd : max ((s1 - ti)/(60.0:ℝ)) 0.0 ≤ max ((s2 - ti)/(60.0:ℝ)) 0.0 := by
    apply max_le_max ?_ le_rfl
    apply div_le_div_of_nonneg_right ?_ (by norm_num)
    linarith
  nlinarith [mul_le_mul_of_nonneg_left hd hlam]

/-- Witness for `C5_effective_activity_decay` at concrete inputs (injection at
time 0, scan starts at −5 min·60 s and at +3, residual 10 of 100 MBq). -/
theorem C5_witness :
    effective_activity_mbq 100 0 3 "FDG" 10 ≤ effective_activity_mbq 100 0 (-5) "FDG" 10 ∧
    effective_activity_mbq 100 0 0 "FDG" 10 = max (100 - 10) 0.0 ∧
    effective_activity_mbq 100 0 (-5) "FDG" 10 = max (100 - 10) 0.0 :=
  ⟨(C5_effective_activity_decay 100 0 10 (-5) 3 "FDG").1 (by norm_num),
   (C5_effective_activity_decay 100 0 10 (-5) 3 "FDG").2.1,
   (C5_effective_activity_decay 100 0 10 (-5) 3 "FDG").2.2 (by norm_num)⟩

/-- Claim C6: `bmi_multiplier` is exactly 1.0 at the reference BMI 22 and at
every BMI at or below it, is non-decreasing in BMI, is constant for every BMI
at or above the cap 40, and always returns at least 1.0. -/
theorem C6_bmi_multiplier_shape : ∀ (b1 b2 : ℝ) (tr : String),
    bmi_multiplier 22.0 tr = 1.0 ∧
    (b1 ≤ 22.0 → bmi_multiplier b1 tr = 1.0) ∧
    (b1 ≤ b2 → bmi_multiplier b1 tr ≤ bmi_multiplier b2 tr) ∧
    (40.0 ≤ b1 → bmi_multiplier b1 tr = bmi_multiplier 40.0 tr) ∧
    1.0 ≤ bmi_multiplier b1 tr := by
  intro b1 b2 tr
  set E := (if tracer_key tr = Tracer.FDG then (0.6:ℝ) else 0.4) with hE
  have he0 : (0:ℝ) < E := by
    rw [hE]
    rcases eq_or_ne (tracer_key tr) Tracer.FDG with h | h
    · rw [if_pos h]; norm_num
    · rw [if_neg h]; norm_num
  have hdef : ∀ b : ℝ, bmi_multiplier b tr =
      if min b 40.0 ≤ 22.0 then (1.0:ℝ) else (min b 40.0 / 22.0) ^ E := by
    intro b
    rw [hE]
    rfl
  have hone : ∀ b : ℝ, ¬ min b 40.0 ≤ 22.0 → (1:ℝ) ≤ (min b 40.0 / 22.0) ^ E := by
    intro b hb
    push_neg at hb
    have hbase : (1:ℝ) ≤ min b 40.0 / 22.0 := by
      rw [le_div_iff₀ (by norm_num)]
      linarith
    have h1E : (1:ℝ) = (1:ℝ) ^ E := (Real.one_rpow E).symm
    rw [h1E]
    exact Real.rpow_le_rpow (by norm_num) hbase he0.le
  refine ⟨?_, ?_, ?_, ?_, ?_⟩
  · rw [hdef, if_pos (min_le_left _ _)]
  · intro h1
    rw [hdef, if_pos (min_le_of_left_le h1)]
  · intro h12
    rw [hdef b1, hdef b2]
    have hm : min b1 40.0 ≤ min b2 40.0 := min_le_min h12 le_rfl
    by_cases h1 : min b1 40.0 ≤ 22.0
    · by_cases h2 : min b2 40.0 ≤ 22.0
      · rw [if_pos h1, if_pos h2]
      · rw [if_pos h1, if_neg h2]
        have := hone b2 h2
        linarith
    · have h2 : ¬ min b2 40.0 ≤ 22.0 := by
        push_neg at h1 ⊢
        linarith
      rw [if_neg h1, if_neg h2]
      push_neg at h1
      apply Real.rpow_le_rpow (div_nonneg (by linarith) (by norm_num)) ?_ he0.le
      exact (div_le_div_iff_of_pos_right (by norm_num)).mpr hm
  · intro h40
    rw [hdef b1, hdef 40.0, min_eq_right h40, min_self]
  · rw [hdef b1]
    by_cases h1 : min b1 40.0 ≤ 22.0
    · rw [if_pos h1]
    · rw [if_neg h1]
      have := hone b1 h1
      linarith

/-- Witness for `C6_bmi_multiplier_shape` at concrete BMI values 18, 45, 50. -/
theorem C6_witness :
    bmi_multiplier 18 "FDG" = 1.0 ∧
    bmi_multiplier 45 "FDG" ≤ bmi_multiplier 50 "FDG" ∧
    bmi_multiplier 45 "FDG" = bmi_multiplier 40.0 "FDG" ∧
    1.0 ≤ bmi_multiplier 45 "FDG" :=
  ⟨(C6_bmi_multiplier_shape 18 50 "FDG").2.1 (by norm_num),
   (C6_bmi_multiplier_shape 45 50 "FDG").2.2.1 (by norm_num),
   (C6_bmi_multiplier_shape 45 50 "FDG").2.2.2.1 (by norm_num),
   (C6_bmi_multiplier_shape 45 50 "FDG").2.2.2.2⟩

/-- Claim C7: `tracer_key` is a total function on labels: it returns PSMA
exactly when the upper-cased label contains the substring "PSMA" (so the test
is case-insensitive), FDG in every other case, and on the examples of the claim:
`tracer_key "f-18 psma-1007" = PSMA`, `tracer_key "FDG" = FDG`,
`tracer_key "unknown" = FDG`. -/
theorem C7_tracer_key_total : ∀ s : String,
    (tracer_key s = Tracer.PSMA ↔ "PSMA".data <:+: upperData s) ∧
    (tracer_key s = Tracer.PSMA ∨ tracer_key s = Tracer.FDG) ∧
    tracer_key "f-18 psma-1007" = Tracer.PSMA ∧
    tracer_key "FDG" = Tracer.FDG ∧
    tracer_key "unknown" = Tracer.FDG := by
  intro s
  refine ⟨?_, ?_, by decide, by decide, by decide⟩
  · unfold tracer_key
    by_cases h : "PSMA".data <:+: upperData s
    · simp [h]
    · simp [h]
  · unfold tracer_key
    by_cases h : "PSMA".data <:+: upperData s
    · left
      simp [h]
    · right
      simp [h]

/-- Claim C8: persistence failures are fully absorbed.  `load_store` returns
the empty mapping when the backing file is missing or malformed; `save_store`
leaves the backing file unchanged when the write fails; and every load returns
a plain mapping (empty or the parsed file content) — no store operation has an
error outcome. -/
theorem C8_persistence_absorbed :
    load_store BackingFile.missing = [] ∧
    load_store BackingFile.malformed = [] ∧
    (∀ (fs : BackingFile) (s : KStore), save_store false fs s = fs) ∧
    (∀ fs : BackingFile, load_store fs = [] ∨
      ∃ s : KStore, fs = BackingFile.content s ∧ load_store fs = s) := by
  refine ⟨rfl, rfl, fun fs s => rfl, fun fs => ?_⟩
  cases fs with
  | missing => exact Or.inl rfl
  | malformed => exact Or.inl rfl
  | content s => exact Or.inr ⟨s, rfl, rfl⟩

lemma npMedian_single (a : ℚ) : npMedian [a] = a := by
  simp [npMedian, npSort, List.insertionSort, List.orderedInsert]

lemma npPercentile_single (q a : ℚ) : npPercentile q [a] = a := by
  simp only [npPercentile, npSort, List.insertionSort, List.orderedInsert,
    List.length_cons, List.length_nil]
  have hpos : q / 100 * (((0 + 1 : ℕ) : ℚ) - 1) = 0 := by
    push_cast
    ring
  rw [hpos]
  simp

/-- Claim C9: `summarize_k` is absent exactly when no measurements exist under
the key `"{tracer}_{recon_profile}"`; otherwise it returns the order statistics
(median, 25th percentile, 75th percentile, count) of all stored values; and
after a single `add_k_measurement` of 5.0 on an empty store it returns
`(5.0, 5.0, 5.0, 1)`. -/
theorem C9_summarize_order_stats : ∀ (store : KStore) (tracer recon_profile : String),
    (summarize_k store tracer recon_profile = none ↔
      (List.lookup (tracer ++ "_" ++ recon_profile) store).getD [] = []) ∧
    ((List.lookup (tracer ++ "_" ++ recon_profile) store).getD [] ≠ [] →
      summarize_k store tracer recon_profile =
        some (npMedian ((List.lookup (tracer ++ "_" ++ recon_profile) store).getD []),
              npPercentile 25 ((List.lookup (tracer ++ "_" ++ recon_profile) store).getD []),
              npPercentile 75 ((List.lookup (tracer ++ "_" ++ recon_profile) store).getD []),
              ((List.lookup (tracer ++ "_" ++ recon_profile) store).getD []).length)) ∧
    summarize_k (add_k_measurement [] "FDG" "EARL" 5) "FDG" "EARL" = some (5, 5, 5, 1) := by
  intro store tracer recon_profile
  refine ⟨?_, ?_, ?_⟩
  · by_cases h : (List.lookup (tracer ++ "_" ++ recon_profile) store).getD [] = []
    · simp [summarize_k, h]
    · simp [summarize_k, h]
  · intro h
    simp [summarize_k, h]
  · have hstore : add_k_measurement [] "FDG" "EARL" 5 = [("FDG_EARL", [5])] := by decide
    rw [hstore]
    have hv : (List.lookup ("FDG" ++ "_" ++ "EARL") [("FDG_EARL", [(5:ℚ)])]).getD [] = [5] := by
      decide
    simp only [summarize_k]
    rw [hv, if_neg (by decide : ¬ ([(5:ℚ)] = []))]
    rw [npMedian_single, npPercentile_single, npPercentile_single]
    rfl

/-- Witness for `C9_summarize_order_stats` on a store holding three
measurements 2, 1, 3 under the key `"FDG_EARL"`. -/
theorem C9_witness :
    summarize_k [("FDG_EARL", [2, 1, 3])] "FDG" "EARL" = some (2, 3/2, 5/2, 3) := by
  have h := (C9_summarize_order_stats [("FDG_EARL", [(2:ℚ), 1, 3])] "FDG" "EARL").2.1
    (by decide)
  rw [h]
  have hv : (List.lookup ("FDG" ++ "_" ++ "EARL") [("FDG_EARL", [(2:ℚ), 1, 3])]).getD [] =
      [2, 1, 3] := by decide
  rw [hv]
  have hs : npSort [(2:ℚ), 1, 3] = [1, 2, 3] := by decide
  have hmed : npMedian [(2:ℚ), 1, 3] = 2 := by decide
  have hlen : (([(1:ℚ), 2, 3]).length : ℚ) = 3 := by simp
  have hp25 : npPercentile 25 [(2:ℚ), 1, 3] = 3/2 := by
    simp only [npPercentile]
    rw [hs]
    rw [show (25:ℚ) / 100 * ((([(1:ℚ), 2, 3]).length : ℚ) - 1) = 1/2 by rw [hlen]; norm_num]
    rw [show ⌊(1/2 : ℚ)⌋ = 0 by rw [Int.floor_eq_iff]; norm_num]
    simp
    norm_num
  have hp75 : npPercentile 75 [(2:ℚ), 1, 3] = 5/2 := by
    simp only [npPercentile]
    rw [hs]
    rw [show (75:ℚ) / 100 * ((([(1:ℚ), 2, 3]).length : ℚ) - 1) = 3/2 by rw [hlen]; norm_num]
    rw [show ⌊(3/2 : ℚ)⌋ = 1 by rw [Int.floor_eq_iff]; norm_num]
    simp
    norm_num
  rw [hmed, hp25, hp75]
  rfl

/-- Claim C10: with the pediatric flag set but no weight supplied,
`solve_standard` applies no pediatric scan-time ceiling and `solve_fast`
applies neither the dose-factor reduction nor the half-ceiling cap: both
compute exactly the adult result. -/
theorem C10_pediatric_needs_weight : ∀ (A k g s m r : ℝ) (tr : String),
    solve_standard A k g s m r tr true none = solve_standard A k g s m r tr false none ∧
    (∀ fr : ℝ, solve_fast A k g m fr r tr true none = solve_fast A k g m fr r tr false none) :=
  fun A k g s m r tr => ⟨rfl, fun fr => rfl⟩
